import Mathlib

/-!
# DotNetMCP — verification of the instance-registry and mode-dispatch layer

Shallow embedding of `mcp-server/src/server/config.py`,
`instance_registry.py`, and the dispatch tools `tools/search.py`,
`tools/xrefs.py`, `tools/detection.py`, `tools/graphs.py`.

JSON payloads are modelled by `JVal`; Python `dict`s are association
lists that keep insertion order (as Python dicts do).  Network responses
are oracle parameters: every tool takes the response(s) the backend
would return and we prove which requests are issued and what the tool
returns.
-/

namespace DotNetMCP

/-- A JSON value.  Numbers are rationals (covers Python int and float
arguments such as `limit` and `min_confidence`). -/
inductive JVal where
  | null
  | bool (b : Bool)
  | num (q : ℚ)
  | str (s : String)
  | arr (elems : List JVal)
  | obj (fields : List (String × JVal))

namespace JVal

/-- First-match association-list lookup, mirroring Python `dict.__getitem__`
on our insertion-ordered model. -/
def alookup : List (String × JVal) → String → Option JVal
  | [], _ => none
  | (k, v) :: rest, key => if k = key then some v else alookup rest key

/-- Python `d.get(key)`: `none` when the value is not an object or the key
is absent. -/
def get : JVal → String → Option JVal
  | obj fields, key => alookup fields key
  | _, _ => none

/-- Python `d.get(key, default)`. -/
def getD (v : JVal) (key : String) (dflt : JVal) : JVal :=
  (v.get key).getD dflt

/-- Python truthiness of a JSON value. -/
def truthy : JVal → Bool
  | null => false
  | bool b => b
  | num q => q != 0
  | str s => s != ""
  | arr es => !es.isEmpty
  | obj fs => !fs.isEmpty

/-- Python truthiness of an optional value (`None` is falsy). -/
def otruthy : Option JVal → Bool
  | none => false
  | some v => v.truthy

/-- Python `d[key] = value` on an insertion-ordered dict: update the
existing key in place, otherwise append. -/
def setKey : List (String × JVal) → String → JVal → List (String × JVal)
  | [], key, v => [(key, v)]
  | (k, w) :: rest, key, v =>
      if k = key then (key, v) :: rest else (k, w) :: setKey rest key v

/-- `d[key] = value` lifted to a `JVal` known to be an object; non-objects
are returned unchanged (Python would raise there; no claim exercises it). -/
def objSet : JVal → String → JVal → JVal
  | obj fields, key, v => obj (setKey fields key v)
  | other, _, _ => other

end JVal

/-- Python truthiness of an optional string (`None` and `""` are falsy),
used for `if mvid:`-style guards. -/
def strTruthy : Option String → Bool
  | none => false
  | some s => s != ""

/-! ## `config.py` — `BackendInstance` and `make_request` -/

/-- `config.BackendInstance`: a backend connection descriptor
(dataclass fields with their defaults). -/
structure BackendInstance where
  name : String
  host : String
  port : Nat
  token : String := ""
  status : String := "pending"
  is_dynamic : Bool := false
  owner : Option String := none
deriving DecidableEq, Repr

/-- `BackendInstance.url`. -/
def BackendInstance.url (inst : BackendInstance) : String :=
  "http://" ++ inst.host ++ ":" ++ toString inst.port

/-- `BackendInstance.to_dict`. -/
def BackendInstance.to_dict (inst : BackendInstance) : JVal :=
  .obj [("name", .str inst.name),
        ("host", .str inst.host),
        ("port", .num inst.port),
        ("url", .str inst.url),
        ("status", .str inst.status),
        ("is_dynamic", .bool inst.is_dynamic),
        ("owner", match inst.owner with
                  | some o => .str o
                  | none => .null)]

/-- One outbound HTTP request, as the tools build them for
`make_request(instance, method, path, params=…, json=…)`. -/
structure Request where
  method : String
  path : String
  params : List (String × JVal) := []
  body : Option (List (String × JVal)) := none

/-- What the network does with one request: an HTTP response (status,
decoded JSON body, raw body text) or a transport-level failure
(`httpx.RequestError`: DNS, connection refused, timeout). -/
inductive HttpOutcome where
  | response (status : Nat) (bodyJson : JVal) (bodyText : String)
  | transportError (desc : String)

/-- The `Authorization` headers `make_request` attaches: a bearer header
only when the instance has a non-empty token. -/
def make_request_headers (inst : BackendInstance) : List (String × String) :=
  if inst.token != "" then [("Authorization", "Bearer " ++ inst.token)] else []

/-- `config.make_request`, with the network's behaviour passed in as
`outcome`.  A 2xx response (`raise_for_status` does not raise) returns the
decoded JSON body; a non-2xx status is caught as `httpx.HTTPStatusError`
and mapped to a structured failure; a transport failure is caught as
`httpx.RequestError` and mapped likewise.  The function never raises. -/
def make_request (outcome : HttpOutcome) : JVal :=
  match outcome with
  | .response status bodyJson bodyText =>
      if 200 ≤ status ∧ status < 300 then
        bodyJson
      else
        .obj [("success", .bool false),
              ("error", .str ("HTTP " ++ toString status)),
              ("message", .str bodyText)]
  | .transportError desc =>
      .obj [("success", .bool false),
            ("error", .str "ConnectionError"),
            ("message", .str desc)]

/-! ## `instance_registry.py` — the instance registry

Registry state is the class-level state of `InstanceRegistry`:
`_instances` is a Python dict (insertion-ordered association list with
unique keys), `_default_instance` the default pointer.  Each mutating
classmethod becomes a pure function from state to (new state, returned
dict); the `/health` probe a mutation performs is an oracle parameter,
and the list of probe requests actually issued is part of the result. -/

/-- Python `name in dict` on the insertion-ordered model. -/
def keyMem (instances : List (String × BackendInstance)) (name : String) : Bool :=
  instances.any (fun p => p.1 == name)

/-- Python `dict[name]` (first match; keys are unique in a real dict). -/
def keyLookup : List (String × BackendInstance) → String → Option BackendInstance
  | [], _ => none
  | (k, v) :: rest, name => if k = name then some v else keyLookup rest name

/-- Python `del dict[name]`: drop the (unique) entry with that key. -/
def keyErase : List (String × BackendInstance) → String → List (String × BackendInstance)
  | [], _ => []
  | (k, v) :: rest, name => if k = name then rest else (k, v) :: keyErase rest name

/-- The class-level state of `InstanceRegistry`. -/
structure RegistryState where
  instances : List (String × BackendInstance) := []
  default_instance : Option String := none
  initialized : Bool := false
deriving DecidableEq, Repr

/-- `InstanceRegistry.get_instance(name=None)`: resolve `None` to the
default pointer, then look the name up; `ValueError` on a missing entry
becomes `Except.error`. -/
def get_instance (s : RegistryState) (name : Option String) :
    Except String BackendInstance :=
  let resolved : Option String :=
    match name with
    | none => s.default_instance
    | some n => some n
  match resolved with
  | some n =>
      match keyLookup s.instances n with
      | some inst => .ok inst
      | none => .error ("Instance '" ++ n ++ "' not found")
  | none => .error "Instance 'None' not found"

/-- `InstanceRegistry.list_instances`: `list(cls._instances.values())`. -/
def list_instances (s : RegistryState) : List BackendInstance :=
  s.instances.map Prod.snd

/-- `InstanceRegistry.set_default`. -/
def set_default (s : RegistryState) (name : String) : RegistryState × JVal :=
  if keyMem s.instances name then
    ({ s with default_instance := some name },
     .obj [("success", .bool true),
           ("message", .str ("Default set to '" ++ name ++ "'"))])
  else
    (s, .obj [("success", .bool false),
              ("message", .str ("Instance '" ++ name ++ "' not found"))])

/-- Outcome of the `GET /health` probe `add_instance` performs on the new
instance, as the code tests it: for `some r` (the dict `make_request`
returned) the test is `result.get("success", True)` under Python
truthiness; `none` (the awaited call raised, the `except Exception`
branch) counts as failure. -/
def probeOk : Option JVal → Bool
  | some r => (r.getD "success" (.bool true)).truthy
  | none => false

/-- The name an add call registers under: `f"instance-{port}"` when the
`name` argument is omitted. -/
def resolvedAddName (name : Option String) (port : Nat) : String :=
  match name with
  | none => "instance-" ++ toString port
  | some n => n

/-- `InstanceRegistry.add_instance(host, port, name=None, token=None,
owner=None, is_dynamic=True)`.  Returns the new state, the returned dict,
and the list of health-probe requests issued (empty on the duplicate-name
early return). -/
def add_instance (s : RegistryState) (host : String) (port : Nat)
    (name : Option String) (token : Option String) (owner : Option String)
    (is_dynamic : Bool) (probe : Option JVal) :
    RegistryState × JVal × List Request :=
  let resolvedName := resolvedAddName name port
  if keyMem s.instances resolvedName then
    (s, .obj [("success", .bool false),
              ("message", .str ("Instance '" ++ resolvedName ++ "' already exists"))],
     [])
  else
    let instPending : BackendInstance :=
      { name := resolvedName, host := host, port := port
        token := match token with
                 | some t => if t != "" then t else ""
                 | none => ""
        status := "pending", is_dynamic := is_dynamic, owner := owner }
    let inst : BackendInstance :=
      { instPending with status := if probeOk probe then "connected" else "error" }
    ({ instances := s.instances ++ [(resolvedName, inst)]
       default_instance := match s.default_instance with
                           | none => some resolvedName
                           | some d => some d
       initialized := s.initialized },
     .obj [("success", .bool true), ("instance", inst.to_dict)],
     [{ method := "GET", path := "/health" }])

/-- `InstanceRegistry.remove_instance`. -/
def remove_instance (s : RegistryState) (name : String) : RegistryState × JVal :=
  match keyLookup s.instances name with
  | none =>
      (s, .obj [("success", .bool false),
                ("message", .str ("Instance '" ++ name ++ "' not found"))])
  | some inst =>
      if !inst.is_dynamic then
        (s, .obj [("success", .bool false),
                  ("message", .str "Cannot remove static instance from config")])
      else
        let remaining := keyErase s.instances name
        ({ instances := remaining
           default_instance :=
             if s.default_instance = some name then
               (remaining.head?).map Prod.fst
             else s.default_instance
           initialized := s.initialized },
         .obj [("success", .bool true),
               ("message", .str ("Instance '" ++ name ++ "' removed"))])

/-! ## `urllib.parse.quote(s, safe='')`

Percent-encodes the UTF-8 bytes of `s`; ASCII letters, digits and
`_ . - ~` are kept as-is, every other byte becomes `%XX` (uppercase). -/

/-- Uppercase hexadecimal digit for `n < 16`. -/
def hexDigit (n : Nat) : Char :=
  if n < 10 then Char.ofNat (48 + n) else Char.ofNat (55 + n)

/-- The characters `quote` never encodes (with `safe=''`). -/
def quoteKeeps (c : Char) : Bool :=
  c.isAlphanum || c == '_' || c == '.' || c == '-' || c == '~'

/-- `urllib.parse.quote(s, safe='')`. -/
def quote (s : String) : String :=
  String.mk <| s.toUTF8.toList.foldr (fun b acc =>
    let n := b.toNat
    if n < 128 && quoteKeeps (Char.ofNat n) then Char.ofNat n :: acc
    else '%' :: hexDigit (n / 16) :: hexDigit (n % 16) :: acc) []

/-! ## `tools/search.py` — the unified search dispatcher

The backend response to the single request a call issues is an oracle
parameter `resp` (the value `make_request` returned); the function
returns the issued requests and the tool's return value. -/

/-- Python `query.startswith("0x")`: the first two characters are `0x`. -/
def startsWith0x (q : String) : Bool :=
  q.data.take 2 == ['0', 'x']

/-- Python `c in query` for a single character `c`. -/
def strContains (q : String) (c : Char) : Bool :=
  q.data.contains c

/-- The reserved characters of the advanced query syntax, as listed in
`any(c in query for c in ['+', '-', '=', '~', '/', '\x22'])`. -/
def reservedChars : List Char := ['+', '-', '=', '~', '/', '"']

/-- `search(query, mode="all", namespace_filter=None, limit=50)` after the
instance has been resolved: lines 72–105 of `tools/search.py`. -/
def search (query mode : String) (namespace_filter : Option String)
    (limit : ℚ) (resp : JVal) : List Request × JVal :=
  if mode = "literal" then
    ([{ method := "GET", path := "/analysis/search/strings",
        params := [("query", .str query), ("mode", .str "contains"),
                   ("limit", .num limit)] }],
     resp)
  else if mode = "token" || startsWith0x query then
    let body := [("query", .str query), ("mode", .str "token"), ("limit", .num limit)]
    let body := if strTruthy namespace_filter then
                  JVal.setKey body "namespaceFilter" (.str (namespace_filter.getD ""))
                else body
    ([{ method := "POST", path := "/analysis/enhanced-search", body := some body }],
     resp)
  else if reservedChars.any (fun c => strContains query c) then
    let body := [("query", .str query), ("mode", .str mode), ("limit", .num limit)]
    let body := if strTruthy namespace_filter then
                  JVal.setKey body "namespaceFilter" (.str (namespace_filter.getD ""))
                else body
    ([{ method := "POST", path := "/analysis/enhanced-search", body := some body }],
     resp)
  else
    let params := [("keyword", .str query), ("limit", .num limit)]
    let params := if strTruthy namespace_filter then
                    JVal.setKey params "namespace" (.str (namespace_filter.getD ""))
                  else params
    ([{ method := "GET", path := "/analysis/search/types", params := params }],
     resp)

/-! ## `tools/xrefs.py` — the unified cross-reference dispatcher -/

/-- The `target: str | list[str]` argument of `get_xrefs`. -/
inductive XrefTarget where
  | single (t : String)
  | batch (ts : List String)

/-- `get_xrefs(target, target_type="type", method_name=None, limit=50)`
after instance resolution: lines 55–96 of `tools/xrefs.py`.  `resp` is
the backend's answer to the (at most one) request issued. -/
def get_xrefs (target : XrefTarget) (target_type : String)
    (method_name : Option String) (limit : ℚ) (resp : JVal) :
    List Request × JVal :=
  match target with
  | .batch ts =>
      if ts.length > 10 then
        ([], .obj [("success", .bool false),
                   ("message", .str "Maximum 10 types per batch xref request")])
      else
        ([{ method := "POST", path := "/analysis/batch/xrefs",
            body := some [("typeNames", .arr (ts.map .str)), ("limit", .num limit)] }],
         resp)
  | .single t =>
      let encoded_target := quote t
      let params : List (String × JVal) := [("limit", .num limit)]
      if target_type = "type" then
        ([{ method := "GET", path := "/analysis/xrefs/type/" ++ encoded_target,
            params := params }],
         resp)
      else if target_type = "method" then
        if !strTruthy method_name then
          ([], .obj [("success", .bool false),
                     ("message", .str "method_name required for method xrefs")])
        else
          ([{ method := "GET",
              path := "/analysis/xrefs/method/" ++ encoded_target ++ "/" ++
                      quote (method_name.getD ""),
              params := params }],
           resp)
      else if target_type = "field" then
        if !strTruthy method_name then
          ([], .obj [("success", .bool false),
                     ("message", .str "method_name (field name) required for field xrefs")])
        else
          ([{ method := "GET",
              path := "/analysis/xrefs/field/" ++ encoded_target ++ "/" ++
                      quote (method_name.getD ""),
              params := params }],
           resp)
      else
        ([], .obj [("success", .bool false),
                   ("message", .str ("Unknown target_type: " ++ target_type))])

/-! ## `tools/detection.py` — the unified detect dispatcher -/

/-- `detect(type="all", min_confidence=0.5, mvid=None)` after instance
resolution: lines 62–77 of `tools/detection.py`.  `patternsResp` and
`obfResp` are the backend answers to the pattern and obfuscation calls
(consulted only when the corresponding call is issued). -/
def detect (ty : String) (min_confidence : ℚ) (mvid : Option String)
    (patternsResp obfResp : JVal) : List Request × JVal :=
  let mvidParams : List (String × JVal) :=
    if strTruthy mvid then [("mvid", .str (mvid.getD ""))] else []
  let doPatterns := ty = "all" || ty = "patterns"
  let doObf := ty = "all" || ty = "obfuscation"
  let patternReqs : List Request :=
    if doPatterns then
      [{ method := "GET", path := "/analysis/patterns",
         params := JVal.setKey mvidParams "minConfidence" (.num min_confidence) }]
    else []
  let obfReqs : List Request :=
    if doObf then
      [{ method := "GET", path := "/analysis/obfuscation", params := mvidParams }]
    else []
  let dataFields : List (String × JVal) :=
    (if doPatterns then [("patterns", patternsResp.getD "data" (.obj []))] else [])
    ++ (if doObf then [("obfuscation", obfResp.getD "data" (.obj []))] else [])
  (patternReqs ++ obfReqs,
   .obj [("success", .bool true), ("data", .obj dataFields)])

/-! ## `tools/graphs.py` — composite CFG building (`build_cfg`) -/

/-- `build_cfg(type_name, method_name, format="json",
include_dominators=False, include_dataflow=False)` after instance
resolution: lines 153–191 of `tools/graphs.py`.  `baseResp`, `domResp`
and `dfResp` are the backend answers to the CFG, dominator and dataflow
calls (each consulted only when its call is issued). -/
def build_cfg (type_name method_name format : String)
    (include_dominators include_dataflow : Bool)
    (baseResp domResp dfResp : JVal) : List Request × JVal :=
  let baseReq : Request :=
    { method := "GET",
      path := "/analysis/cfg/" ++ type_name ++ "/" ++ method_name,
      params := [("format", .str format)] }
  let body : List (String × JVal) :=
    [("typeName", .str type_name), ("methodName", .str method_name)]
  let st0 : List Request × JVal := ([baseReq], baseResp)
  let st1 : List Request × JVal :=
    if include_dominators && JVal.otruthy (st0.2.get "success") then
      let reqs := st0.1 ++ [{ method := "POST", path := "/analysis/dominators",
                              body := some body }]
      if JVal.otruthy (domResp.get "success") then
        (reqs, st0.2.objSet "dominators" (.obj
          [("immediateDominators", (domResp.get "immediateDominators").getD .null),
           ("dominanceFrontier", (domResp.get "dominanceFrontier").getD .null),
           ("controlDependence", (domResp.get "controlDependence").getD .null)]))
      else (reqs, st0.2)
    else st0
  if include_dataflow && JVal.otruthy (st1.2.get "success") then
    let reqs := st1.1 ++ [{ method := "POST", path := "/analysis/dataflow",
                            body := some body }]
    if JVal.otruthy (dfResp.get "success") then
      (reqs, st1.2.objSet "dataflow" (.obj
        [("liveIn", (dfResp.get "liveIn").getD .null),
         ("liveOut", (dfResp.get "liveOut").getD .null),
         ("definitionCount", (dfResp.get "definitionCount").getD .null)]))
    else (reqs, st1.2)
  else st1

/-! ## Heap model of `list_instances` for the snapshot claim

Python `BackendInstance` objects are mutable records; `list()` copies the
list, not the records.  Object identity is modelled as a `Nat` address
into a heap, the registry's `_instances` dict maps names to addresses,
and `list(cls._instances.values())` returns a fresh list of the same
addresses. -/

/-- Heap of `BackendInstance` records, addressed by position. -/
structure Heap where
  recs : List BackendInstance
deriving DecidableEq, Repr

/-- In-place update of the record at one address. -/
def listModify : List BackendInstance → Nat →
    (BackendInstance → BackendInstance) → List BackendInstance
  | [], _, _ => []
  | x :: xs, 0, f => f x :: xs
  | x :: xs, n + 1, f => x :: listModify xs n f

/-- `record.status = st` executed through a reference held by a caller. -/
def Heap.setStatus (h : Heap) (ref : Nat) (st : String) : Heap :=
  ⟨listModify h.recs ref (fun r => { r with status := st })⟩

/-- The registry's `_instances` dict, with object references as values. -/
structure RegistryRefs where
  instances : List (String × Nat)
deriving DecidableEq, Repr

/-- `dict[name]` on the reference-valued registry dict. -/
def refLookup : List (String × Nat) → String → Option Nat
  | [], _ => none
  | (k, r) :: rest, name => if k = name then some r else refLookup rest name

/-- `list(cls._instances.values())`: a fresh list holding the same
references as the registry — the records themselves are not copied. -/
def list_instances_refs (r : RegistryRefs) : List Nat :=
  r.instances.map Prod.snd

/-- The registry's own view of the instance registered under `name`:
dereference the stored address in the current heap. -/
def registryView (h : Heap) (r : RegistryRefs) (name : String) :
    Option BackendInstance :=
  (refLookup r.instances name).bind (fun ref => h.recs[ref]?)

/-! ## Observation helpers and concrete example values -/

/-- The (method, path) pair identifying the endpoint a request targets. -/
def Request.endpoint (r : Request) : String × String :=
  (r.method, r.path)

/-- The `"mode"` value sent in a request's JSON body, if any. -/
def Request.bodyMode (r : Request) : Option JVal :=
  match r.body with
  | some fields => JVal.alookup fields "mode"
  | none => none

/-- A failed pattern-detection call: the dict `make_request` returns for
an HTTP 500 from `/analysis/patterns`. -/
def patternsFailResp : JVal :=
  .obj [("success", .bool false), ("error", .str "HTTP 500"),
        ("message", .str "internal error")]

/-- A successful pattern-detection call that found nothing. -/
def patternsEmptyResp : JVal :=
  .obj [("success", .bool true), ("data", .obj [])]

/-- A successful obfuscation-detection call. -/
def obfOkResp : JVal :=
  .obj [("success", .bool true), ("data", .obj [("score", .num 1)])]

/-- A one-record heap for the snapshot claim: the registry owns a single
connected dynamic instance. -/
def snapshotHeap : Heap :=
  ⟨[{ name := "a", host := "127.0.0.1", port := 9000,
      status := "connected", is_dynamic := true }]⟩

/-- The reference-valued registry dict matching `snapshotHeap`. -/
def snapshotRefs : RegistryRefs := ⟨[("a", 0)]⟩

/-- A dynamic instance named `a`. -/
def dynInstA : BackendInstance :=
  { name := "a", host := "127.0.0.1", port := 9000,
    status := "connected", is_dynamic := true }

/-- A dynamic instance named `b`. -/
def dynInstB : BackendInstance :=
  { name := "b", host := "127.0.0.1", port := 9001,
    status := "connected", is_dynamic := true }

/-- A registry holding the two dynamic instances, `a` being default. -/
def twoInstState : RegistryState :=
  { instances := [("a", dynInstA), ("b", dynInstB)],
    default_instance := some "a", initialized := true }

/-- A successful basic CFG response. -/
def cfgOkResp : JVal :=
  .obj [("success", .bool true), ("blocks", .arr [])]

/-- A failed dominator-analysis response. -/
def domFailResp : JVal :=
  .obj [("success", .bool false), ("error", .str "HTTP 500")]

/-- A successful dataflow-analysis response. -/
def dfOkResp : JVal :=
  .obj [("success", .bool true), ("liveIn", .arr []), ("liveOut", .arr []),
        ("definitionCount", .num 0)]

/-! ## Helper lemmas on the dict model -/

theorem get_obj (fs : List (String × JVal)) (k : String) :
    (JVal.obj fs).get k = JVal.alookup fs k := rfl

theorem alookup_setKey_self (fs : List (String × JVal)) (k : String) (v : JVal) :
    JVal.alookup (JVal.setKey fs k v) k = some v := by
  induction fs with
  | nil => simp [JVal.setKey, JVal.alookup]
  | cons p rest ih =>
      obtain ⟨k', w⟩ := p
      by_cases h : k' = k
      · simp [JVal.setKey, JVal.alookup, h]
      · simp [JVal.setKey, JVal.alookup, h, ih]

theorem alookup_setKey_other (fs : List (String × JVal)) (k k' : String) (v : JVal)
    (h : k' ≠ k) :
    JVal.alookup (JVal.setKey fs k v) k' = JVal.alookup fs k' := by
  induction fs with
  | nil => simp [JVal.setKey, JVal.alookup, Ne.symm h]
  | cons p rest ih =>
      obtain ⟨k0, w⟩ := p
      by_cases h0 : k0 = k
      · subst h0
        simp [JVal.setKey, JVal.alookup, Ne.symm h]
      · simp only [JVal.setKey, if_neg h0]
        by_cases h1 : k0 = k'
        · simp [JVal.alookup, h1]
        · simp [JVal.alookup, h1, ih]

theorem get_objSet_self (fs : List (String × JVal)) (k : String) (v : JVal) :
    ((JVal.obj fs).objSet k v).get k = some v := by
  simpa [JVal.objSet, JVal.get] using alookup_setKey_self fs k v

theorem get_objSet_other (fs : List (String × JVal)) (k k' : String) (v : JVal)
    (h : k' ≠ k) :
    ((JVal.obj fs).objSet k v).get k' = (JVal.obj fs).get k' := by
  simpa [JVal.objSet, JVal.get] using alookup_setKey_other fs k k' v h

/-- A value whose `.get` yields something truthy is an object. -/
theorem exists_obj_of_otruthy (v : JVal) (k : String)
    (h : JVal.otruthy (v.get k) = true) : ∃ fs, v = .obj fs := by
  cases v <;> simp [JVal.get, JVal.otruthy] at h ⊢

theorem keyMem_of_keyLookup (l : List (String × BackendInstance)) (name : String)
    (inst : BackendInstance) (h : keyLookup l name = some inst) :
    keyMem l name = true := by
  induction l with
  | nil => simp [keyLookup] at h
  | cons p rest ih =>
      obtain ⟨k, v⟩ := p
      by_cases hk : k = name
      · simp [keyMem, hk]
      · simp only [keyLookup, if_neg hk] at h
        have hr := ih h
        simp only [keyMem] at hr ⊢
        simp [List.any_cons, hr]

theorem keyErase_length (l : List (String × BackendInstance)) (name : String)
    (h : keyMem l name = true) : (keyErase l name).length + 1 = l.length := by
  induction l with
  | nil => simp [keyMem] at h
  | cons p rest ih =>
      obtain ⟨k, v⟩ := p
      by_cases hk : k = name
      · simp [keyErase, hk]
      · have hrest : keyMem rest name = true := by simpa [keyMem, hk] using h
        simp [keyErase, hk, ih hrest]

theorem keyLookup_eq_none_of_not_mem (l : List (String × BackendInstance))
    (name : String) (h : name ∉ l.map Prod.fst) : keyLookup l name = none := by
  induction l with
  | nil => rfl
  | cons p rest ih =>
      obtain ⟨k, v⟩ := p
      simp only [List.map_cons, List.mem_cons] at h
      push_neg at h
      have hk : k ≠ name := fun hh => h.1 hh.symm
      simp [keyLookup, hk, ih h.2]

theorem keyErase_keys_sublist (l : List (String × BackendInstance)) (name : String) :
    ((keyErase l name).map Prod.fst).Sublist (l.map Prod.fst) := by
  induction l with
  | nil => simp [keyErase]
  | cons p rest ih =>
      obtain ⟨k, v⟩ := p
      by_cases hk : k = name
      · simp only [keyErase, if_pos hk]
        exact List.sublist_cons_self k (rest.map Prod.fst)
      · simpa [keyErase, hk] using List.Sublist.cons₂ k ih

theorem keyLookup_keyErase_self (l : List (String × BackendInstance)) (name : String)
    (hnd : (l.map Prod.fst).Nodup) :
    keyLookup (keyErase l name) name = none := by
  induction l with
  | nil => rfl
  | cons p rest ih =>
      obtain ⟨k, v⟩ := p
      simp only [List.map_cons, List.nodup_cons] at hnd
      by_cases hk : k = name
      · subst hk
        simpa [keyErase] using keyLookup_eq_none_of_not_mem rest k hnd.1
      · simp [keyErase, keyLookup, hk, ih hnd.2]

theorem getElem?_listModify (l : List BackendInstance) (i : Nat)
    (f : BackendInstance → BackendInstance) :
    (listModify l i f)[i]? = (l[i]?).map f := by
  induction l generalizing i with
  | nil => cases i <;> simp [listModify]
  | cons x xs ih =>
      cases i with
      | zero => simp [listModify]
      | succ n => simpa [listModify] using ih n

theorem refLookup_mem_snd (l : List (String × Nat)) (name : String) (ref : Nat)
    (h : refLookup l name = some ref) : ref ∈ l.map Prod.snd := by
  induction l with
  | nil => simp [refLookup] at h
  | cons p rest ih =>
      obtain ⟨k, v⟩ := p
      by_cases hk : k = name
      · simp only [refLookup, if_pos hk, Option.some.injEq] at h
        simp [h]
      · simp only [refLookup, if_neg hk] at h
        simp [ih h]

theorem mem_list_instances_refs_of_refLookup (r : RegistryRefs) (name : String)
    (ref : Nat) (h : refLookup r.instances name = some ref) :
    ref ∈ list_instances_refs r :=
  refLookup_mem_snd r.instances name ref h

/-! ## Claim theorems -/

/-- **C8**: for every backend-client request, a 2xx response yields the
decoded JSON body unmodified; a non-2xx response yields
`{success: false, error: "HTTP <status>", message: <body text>}` rather
than an exception; a transport-level failure yields
`{success: false, error: "ConnectionError", message: <description>}`.
`make_request` is total on every remote outcome, so it never raises for
a remote failure. -/
theorem C8_make_request_outcomes (status : Nat) (bodyJson : JVal)
    (bodyText desc : String) :
    (200 ≤ status → status < 300 →
      make_request (.response status bodyJson bodyText) = bodyJson) ∧
    (¬(200 ≤ status ∧ status < 300) →
      make_request (.response status bodyJson bodyText) =
        .obj [("success", .bool false),
              ("error", .str ("HTTP " ++ toString status)),
              ("message", .str bodyText)]) ∧
    make_request (.transportError desc) =
      .obj [("success", .bool false),
            ("error", .str "ConnectionError"),
            ("message", .str desc)] := by
  refine ⟨fun h1 h2 => ?_, fun h => ?_, rfl⟩ <;> simp [make_request, *]

/-- Witness for C8 at status 200 and status 404. -/
theorem C8_make_request_outcomes_witness :
    make_request (.response 200 (.obj [("ok", .bool true)]) "ok") =
      .obj [("ok", .bool true)] ∧
    make_request (.response 404 .null "not found") =
      .obj [("success", .bool false),
            ("error", .str "HTTP 404"),
            ("message", .str "not found")] := by
  have h1 := (C8_make_request_outcomes 200 (.obj [("ok", .bool true)]) "ok" "x").1
    (by decide) (by decide)
  have h2 := (C8_make_request_outcomes 404 .null "not found" "x").2.1 (by decide)
  exact ⟨h1, by simpa using h2⟩

/-- **C10**: `detect` with a `type` outside `{all, patterns, obfuscation}`
issues zero remote calls and returns `{"success": true, "data": {}}` — a
successful empty result, not a validation failure. -/
theorem C10_detect_unknown_type (ty : String) (mc : ℚ) (mvid : Option String)
    (patternsResp obfResp : JVal)
    (h1 : ty ≠ "all") (h2 : ty ≠ "patterns") (h3 : ty ≠ "obfuscation") :
    detect ty mc mvid patternsResp obfResp =
      ([], .obj [("success", .bool true), ("data", .obj [])]) := by
  simp [detect, h1, h2, h3]

/-- Witness for C10 at `detect(type="foo")`. -/
theorem C10_detect_unknown_type_witness :
    detect "foo" (1/2) none .null .null =
      ([], .obj [("success", .bool true), ("data", .obj [])]) :=
  C10_detect_unknown_type "foo" (1/2) none .null .null
    (by decide) (by decide) (by decide)

/-- **C6** (counterexample): the claim says the response of
`detect(type="all")` carries, for a failed sub-call, a field reflecting
that failure.  In the code the field is `patterns_result.get("data", {})`,
which for the failure dict `make_request` returns is the empty object —
the very same response as for a successful pattern detection that found
nothing.  So the output on a failing patterns call is literally equal to
the output on a successful empty one, and the `patterns` field is `{}`:
the failure is not reflected. -/
theorem C6_detect_counterexample :
    detect "all" (1/2) none patternsFailResp obfOkResp =
      detect "all" (1/2) none patternsEmptyResp obfOkResp ∧
    ((detect "all" (1/2) none patternsFailResp obfOkResp).2.getD "data" .null).get
        "patterns" = some (.obj []) :=
  ⟨rfl, rfl⟩

/-- **C6** (amended): `detect(type="all")` issues exactly the pattern and
the obfuscation calls (both are issued whatever either response is, so a
failure of one cannot prevent the other), and the response holds both a
`patterns` and an `obfuscation` field under `data`, each set to the
corresponding response's `data` payload — or to the empty object when
that payload is absent, as it is for a failure, whose detail is
discarded.  `type="patterns"`/`"obfuscation"` issue exactly the one
corresponding call and populate only that field. -/
theorem C6_detect_dispatch (ty : String) (mc : ℚ) (mvid : Option String)
    (patternsResp obfResp : JVal) :
    (ty = "all" →
      (detect ty mc mvid patternsResp obfResp).1.map Request.endpoint =
        [("GET", "/analysis/patterns"), ("GET", "/analysis/obfuscation")] ∧
      (detect ty mc mvid patternsResp obfResp).2 =
        .obj [("success", .bool true),
              ("data", .obj [("patterns", patternsResp.getD "data" (.obj [])),
                             ("obfuscation", obfResp.getD "data" (.obj []))])]) ∧
    (ty = "patterns" →
      (detect ty mc mvid patternsResp obfResp).1.map Request.endpoint =
        [("GET", "/analysis/patterns")] ∧
      (detect ty mc mvid patternsResp obfResp).2 =
        .obj [("success", .bool true),
              ("data", .obj [("patterns", patternsResp.getD "data" (.obj []))])]) ∧
    (ty = "obfuscation" →
      (detect ty mc mvid patternsResp obfResp).1.map Request.endpoint =
        [("GET", "/analysis/obfuscation")] ∧
      (detect ty mc mvid patternsResp obfResp).2 =
        .obj [("success", .bool true),
              ("data", .obj [("obfuscation", obfResp.getD "data" (.obj []))])]) := by
  refine ⟨fun h => ?_, fun h => ?_, fun h => ?_⟩ <;>
    subst h <;> simp [detect, Request.endpoint]

/-- Witness for C6 (amended) at `type="all"` with a failing patterns
call. -/
theorem C6_detect_dispatch_witness :
    (detect "all" (1/2) none patternsFailResp obfOkResp).1.map Request.endpoint =
      [("GET", "/analysis/patterns"), ("GET", "/analysis/obfuscation")] ∧
    (detect "all" (1/2) none patternsFailResp obfOkResp).2 =
      .obj [("success", .bool true),
            ("data", .obj [("patterns", .obj []),
                           ("obfuscation", .obj [("score", .num 1)])])] := by
  have h := (C6_detect_dispatch "all" (1/2) none patternsFailResp obfOkResp).1 rfl
  exact ⟨h.1, by rw [h.2]; rfl⟩

/-- **C9** (counterexample): the claim says mutating an instance record
reachable from the value `list()` returned leaves the registry's own
state unchanged.  `list_instances` copies only the list; the records are
the registry's own mutable objects.  With one registered instance,
setting `status = "error"` through the reference obtained from the
returned list changes what the registry itself sees for that name. -/
theorem C9_snapshot_counterexample :
    (0 : Nat) ∈ list_instances_refs snapshotRefs ∧
    registryView (snapshotHeap.setStatus 0 "error") snapshotRefs "a" ≠
      registryView snapshotHeap snapshotRefs "a" := by
  refine ⟨by decide, by decide⟩

/-- **C9** (amended): `list_instances` returns a fresh list, but its
elements are references to the registry's own mutable instance records,
not copies: for any reference the registry associates with a name (hence
contained in the returned list), mutating that record's `status` through
the reference updates the registry's own view of that instance to the
mutated record. -/
theorem C9_list_aliasing (h : Heap) (r : RegistryRefs) (name st : String)
    (ref : Nat) (href : refLookup r.instances name = some ref) :
    ref ∈ list_instances_refs r ∧
    registryView (h.setStatus ref st) r name =
      (registryView h r name).map (fun i => { i with status := st }) := by
  refine ⟨mem_list_instances_refs_of_refLookup r name ref href, ?_⟩
  simp [registryView, href, Heap.setStatus, getElem?_listModify]

/-- Witness for C9 (amended) on the one-instance registry. -/
theorem C9_list_aliasing_witness :
    registryView (snapshotHeap.setStatus 0 "error") snapshotRefs "a" =
      some { name := "a", host := "127.0.0.1", port := 9000,
             status := "error", is_dynamic := true } := by
  have hh := C9_list_aliasing snapshotHeap snapshotRefs "a" "error" 0 rfl
  rw [hh.2]; decide

/-- **C1**: the unified search issues exactly one backend request, and
routes it by the code's rules: `mode="literal"` always to the
string-literal endpoint; else `mode="token"` or a query starting `0x` to
the enhanced endpoint with body mode `token`; else a query containing a
reserved character to the enhanced endpoint with the original mode; else
to the plain keyword-search endpoint. -/
theorem C1_search_routing (query mode : String) (nsf : Option String)
    (limit : ℚ) (resp : JVal) :
    (search query mode nsf limit resp).1.length = 1 ∧
    (mode = "literal" →
      (search query mode nsf limit resp).1.map Request.endpoint =
        [("GET", "/analysis/search/strings")]) ∧
    (mode ≠ "literal" → (mode = "token" ∨ startsWith0x query = true) →
      (search query mode nsf limit resp).1.map Request.endpoint =
        [("POST", "/analysis/enhanced-search")] ∧
      (search query mode nsf limit resp).1.map Request.bodyMode =
        [some (.str "token")]) ∧
    (mode ≠ "literal" → mode ≠ "token" → startsWith0x query = false →
      (∃ c ∈ reservedChars, strContains query c = true) →
      (search query mode nsf limit resp).1.map Request.endpoint =
        [("POST", "/analysis/enhanced-search")] ∧
      (search query mode nsf limit resp).1.map Request.bodyMode =
        [some (.str mode)]) ∧
    (mode ≠ "literal" → mode ≠ "token" → startsWith0x query = false →
      (∀ c ∈ reservedChars, strContains query c = false) →
      (search query mode nsf limit resp).1.map Request.endpoint =
        [("GET", "/analysis/search/types")]) := by
  refine ⟨?_, ?_, ?_, ?_, ?_⟩
  · unfold search; split_ifs <;> simp
  · intro h1
    simp [search, h1, Request.endpoint]
  · intro h1 h2
    by_cases hm : mode = "token"
    · cases hnsf : strTruthy nsf <;>
        simp [search, h1, hm, hnsf, Request.endpoint, Request.bodyMode,
              JVal.setKey, JVal.alookup]
    · have h3 : startsWith0x query = true := by tauto
      cases hnsf : strTruthy nsf <;>
        simp [search, h1, hm, h3, hnsf, Request.endpoint, Request.bodyMode,
              JVal.setKey, JVal.alookup]
  · intro h1 h2 h3 h4
    have hany : reservedChars.any (fun c => strContains query c) = true :=
      List.any_eq_true.mpr h4
    cases hnsf : strTruthy nsf <;>
      simp [search, h1, h2, h3, hany, hnsf, Request.endpoint, Request.bodyMode,
            JVal.setKey, JVal.alookup]
  · intro h1 h2 h3 h4
    have hany : reservedChars.any (fun c => strContains query c) = false := by
      simp only [List.any_eq_false]
      intro c hc
      simp [h4 c hc]
    cases hnsf : strTruthy nsf <;>
      simp [search, h1, h2, h3, hany, hnsf, Request.endpoint]

/-- Witness for C1: `search("+Foo -Bar", mode="type")` goes to the
enhanced endpoint carrying the original mode. -/
theorem C1_search_routing_witness :
    (search "+Foo -Bar" "type" none 50 .null).1.map Request.endpoint =
      [("POST", "/analysis/enhanced-search")] ∧
    (search "+Foo -Bar" "type" none 50 .null).1.map Request.bodyMode =
      [some (.str "type")] :=
  (C1_search_routing "+Foo -Bar" "type" none 50 .null).2.2.2.1
    (by decide) (by decide) (by decide) ⟨'+', by decide, by decide⟩

/-- **C2**: an add call whose (explicit or auto-generated) name already
exists fails with the duplicate error, leaves the registry state
identical, and issues no health probe. -/
theorem C2_add_duplicate (s : RegistryState) (host : String) (port : Nat)
    (name token owner : Option String) (is_dyn : Bool) (probe : Option JVal)
    (hdup : keyMem s.instances (resolvedAddName name port) = true) :
    (add_instance s host port name token owner is_dyn probe).1 = s ∧
    (add_instance s host port name token owner is_dyn probe).2.2 = [] ∧
    (add_instance s host port name token owner is_dyn probe).2.1.get "success" =
      some (.bool false) ∧
    (add_instance s host port name token owner is_dyn probe).2.1.get "message" =
      some (.str ("Instance '" ++ resolvedAddName name port ++ "' already exists")) := by
  refine ⟨?_, ?_, ?_, ?_⟩ <;> simp [add_instance, hdup, JVal.get, JVal.alookup]

/-- Witness for C2: adding a second `a` to the two-instance registry. -/
theorem C2_add_duplicate_witness :
    (add_instance twoInstState "10.0.0.1" 9999 (some "a") none none true none).1 =
      twoInstState ∧
    (add_instance twoInstState "10.0.0.1" 9999 (some "a") none none true none).2.2 =
      [] ∧
    (add_instance twoInstState "10.0.0.1" 9999 (some "a") none none true
        none).2.1.get "success" = some (.bool false) := by
  have h := C2_add_duplicate twoInstState "10.0.0.1" 9999 (some "a") none none
    true none (by decide)
  exact ⟨h.1, h.2.1, h.2.2.1⟩

/-- **C4**: an add call with a fresh name registers under the explicit
name, or under `"instance-" + port` when omitted; the add succeeds, the
new entry is appended with status `connected` exactly when the health
probe succeeded and `error` otherwise (a failed probe never fails the
add), exactly one probe is issued, and the new entry becomes default when
the registry had none. -/
theorem C4_add_fresh (s : RegistryState) (host : String) (port : Nat)
    (name token owner : Option String) (is_dyn : Bool) (probe : Option JVal)
    (hfresh : keyMem s.instances (resolvedAddName name port) = false) :
    (name = none → resolvedAddName name port = "instance-" ++ toString port) ∧
    (add_instance s host port name token owner is_dyn probe).2.1.get "success" =
      some (.bool true) ∧
    (add_instance s host port name token owner is_dyn probe).2.2 =
      [{ method := "GET", path := "/health" }] ∧
    (∃ i : BackendInstance,
      (add_instance s host port name token owner is_dyn probe).1.instances =
        s.instances ++ [(resolvedAddName name port, i)] ∧
      i.status = (if probeOk probe then "connected" else "error")) ∧
    (s.default_instance = none →
      (add_instance s host port name token owner is_dyn probe).1.default_instance =
        some (resolvedAddName name port)) := by
  refine ⟨fun h => by simp [resolvedAddName, h], ?_, ?_, ?_, fun hd => ?_⟩
  · simp [add_instance, hfresh, JVal.get, JVal.alookup]
  · simp [add_instance, hfresh]
  · refine ⟨{ name := resolvedAddName name port, host := host, port := port,
              token := match token with
                       | some t => if t != "" then t else ""
                       | none => "",
              status := if probeOk probe then "connected" else "error",
              is_dynamic := is_dyn, owner := owner }, ?_, rfl⟩
    simp [add_instance, hfresh]
  · simp [add_instance, hfresh, hd]

/-- Witness for C4: adding to the empty registry with the name omitted
and a successful probe. -/
theorem C4_add_fresh_witness :
    ((add_instance {} "127.0.0.1" 9000 none none none true
        (some (.obj [("success", .bool true)]))).1.instances.map Prod.fst =
      ["instance-9000"]) ∧
    (add_instance {} "127.0.0.1" 9000 none none none true
        (some (.obj [("success", .bool true)]))).1.default_instance =
      some "instance-9000" := by
  have h := C4_add_fresh {} "127.0.0.1" 9000 none none none true
    (some (.obj [("success", .bool true)])) (by decide)
  obtain ⟨i, hi, _⟩ := h.2.2.2.1
  refine ⟨?_, by simpa [resolvedAddName] using h.2.2.2.2 rfl⟩
  rw [hi]
  simp only [resolvedAddName, List.map_cons, List.map_nil, List.nil_append]
  decide

/-- **C3**: `remove_instance` fails NotFound when the name is absent;
fails Protected with the state untouched when the entry is static;
otherwise deletes exactly that entry (the count decreases by one), a
subsequent get of the removed name fails NotFound, the default pointer
never names the removed instance afterwards, and when the removed
instance was the default the new default names a remaining entry, or is
empty exactly when the registry emptied. -/
theorem C3_remove_instance (s : RegistryState) (name : String)
    (hnd : (s.instances.map Prod.fst).Nodup) :
    (keyLookup s.instances name = none →
      remove_instance s name =
        (s, .obj [("success", .bool false),
                  ("message", .str ("Instance '" ++ name ++ "' not found"))])) ∧
    (∀ inst, keyLookup s.instances name = some inst → inst.is_dynamic = false →
      remove_instance s name =
        (s, .obj [("success", .bool false),
                  ("message", .str "Cannot remove static instance from config")])) ∧
    (∀ inst, keyLookup s.instances name = some inst → inst.is_dynamic = true →
      (remove_instance s name).1.instances.length + 1 = s.instances.length ∧
      (remove_instance s name).2.get "success" = some (.bool true) ∧
      get_instance (remove_instance s name).1 (some name) =
        .error ("Instance '" ++ name ++ "' not found") ∧
      (remove_instance s name).1.default_instance ≠ some name ∧
      (s.default_instance = some name →
        ((remove_instance s name).1.default_instance = none ∧
          (remove_instance s name).1.instances = []) ∨
        (∃ d, (remove_instance s name).1.default_instance = some d ∧
          keyMem (remove_instance s name).1.instances d = true))) := by
  refine ⟨fun h => by simp [remove_instance, h],
          fun inst h hd => by simp [remove_instance, h, hd], fun inst h hd => ?_⟩
  have hmem : keyMem s.instances name = true := keyMem_of_keyLookup _ _ _ h
  have hself : keyLookup (keyErase s.instances name) name = none :=
    keyLookup_keyErase_self s.instances name hnd
  simp only [remove_instance, h, hd, Bool.not_true, Bool.false_eq_true, if_false]
  refine ⟨keyErase_length s.instances name hmem, by simp [JVal.get, JVal.alookup],
          ?_, ?_, ?_⟩
  · simp [get_instance, hself]
  · by_cases hdef : s.default_instance = some name
    · simp only [hdef, if_pos rfl]
      cases hr : keyErase s.instances name with
      | nil => simp
      | cons p rest =>
          obtain ⟨k, v⟩ := p
          rw [hr] at hself
          by_cases hk : k = name
          · simp [keyLookup, hk] at hself
          · simp [hk]
    · simp [hdef]
  · intro hdef
    simp only [hdef, if_pos rfl]
    cases hr : keyErase s.instances name with
    | nil => exact Or.inl ⟨rfl, rfl⟩
    | cons p rest =>
        obtain ⟨k, v⟩ := p
        exact Or.inr ⟨k, rfl, by simp [keyMem]⟩

/-- Witness for C3: removing the default dynamic instance `a` from the
two-instance registry. -/
theorem C3_remove_instance_witness :
    (remove_instance twoInstState "a").1.instances.length + 1 =
      twoInstState.instances.length ∧
    get_instance (remove_instance twoInstState "a").1 (some "a") =
      .error "Instance 'a' not found" ∧
    (remove_instance twoInstState "a").1.default_instance ≠ some "a" := by
  have h := (C3_remove_instance twoInstState "a" (by decide)).2.2 dynInstA
    (by decide) (by decide)
  refine ⟨h.1, ?_, h.2.2.2.1⟩
  rw [h.2.2.1]
  rfl

/-- **C5**: the unified cross-reference dispatcher: a list target routes
to the batch endpoint, lists longer than 10 being rejected with a
structured failure before any network call; a single target routes by
`target_type`, and method/field lookups with the `method_name` argument
missing fail validation with zero network calls issued. -/
theorem C5_get_xrefs_routing (target_type t : String) (ts : List String)
    (method_name : Option String) (limit : ℚ) (resp : JVal) :
    (ts.length > 10 →
      (get_xrefs (.batch ts) target_type method_name limit resp).1 = [] ∧
      (get_xrefs (.batch ts) target_type method_name limit resp).2 =
        .obj [("success", .bool false),
              ("message", .str "Maximum 10 types per batch xref request")]) ∧
    (ts.length ≤ 10 →
      (get_xrefs (.batch ts) target_type method_name limit resp).1.map
          Request.endpoint = [("POST", "/analysis/batch/xrefs")]) ∧
    ((get_xrefs (.single t) "type" method_name limit resp).1.map
        Request.endpoint = [("GET", "/analysis/xrefs/type/" ++ quote t)]) ∧
    (method_name = none →
      (get_xrefs (.single t) "method" method_name limit resp).1 = [] ∧
      (get_xrefs (.single t) "method" method_name limit resp).2.get "success" =
        some (.bool false) ∧
      (get_xrefs (.single t) "field" method_name limit resp).1 = [] ∧
      (get_xrefs (.single t) "field" method_name limit resp).2.get "success" =
        some (.bool false)) ∧
    (∀ mn, mn ≠ "" → method_name = some mn →
      (get_xrefs (.single t) "method" method_name limit resp).1.map
          Request.endpoint =
        [("GET", "/analysis/xrefs/method/" ++ quote t ++ "/" ++ quote mn)] ∧
      (get_xrefs (.single t) "field" method_name limit resp).1.map
          Request.endpoint =
        [("GET", "/analysis/xrefs/field/" ++ quote t ++ "/" ++ quote mn)]) := by
  refine ⟨fun h => ?_, fun h => ?_, ?_, fun h => ?_, fun mn hmn h => ?_⟩
  · simp [get_xrefs, h]
  · simp [get_xrefs, Nat.not_lt.mpr h, Request.endpoint]
  · simp [get_xrefs, Request.endpoint]
  · subst h
    refine ⟨?_, ?_, ?_, ?_⟩ <;>
      simp [get_xrefs, strTruthy, JVal.get, JVal.alookup]
  · subst h
    have hs : strTruthy (some mn) = true := by
      simp [strTruthy, hmn]
    constructor <;> simp [get_xrefs, hs, Request.endpoint]

/-- Witness for C5: a batch of 11 type names is rejected with zero
requests issued. -/
theorem C5_get_xrefs_routing_witness :
    (get_xrefs
        (.batch ["T1", "T2", "T3", "T4", "T5", "T6", "T7", "T8", "T9", "T10", "T11"])
        "type" none 50 .null).1 = [] ∧
    (get_xrefs
        (.batch ["T1", "T2", "T3", "T4", "T5", "T6", "T7", "T8", "T9", "T10", "T11"])
        "type" none 50 .null).2 =
      .obj [("success", .bool false),
            ("message", .str "Maximum 10 types per batch xref request")] :=
  (C5_get_xrefs_routing "type" "X"
    ["T1", "T2", "T3", "T4", "T5", "T6", "T7", "T8", "T9", "T10", "T11"]
    none 50 .null).1 (by decide)

/-- **C7**: `build_cfg` issues the dominator/dataflow enrichment calls
only when the basic CFG call succeeded; each successful enrichment is
merged as an additional named field (`dominators`, `dataflow`) on the
base response; a failed enrichment leaves its field exactly as it is on
the base response and every other field of the base response untouched
(in particular `success`), so the whole operation never fails because an
enrichment did. -/
theorem C7_build_cfg_enrichment (tn mn fmt : String) (incD incF : Bool)
    (baseResp domResp dfResp : JVal) :
    (JVal.otruthy (baseResp.get "success") = false →
      build_cfg tn mn fmt incD incF baseResp domResp dfResp =
        ([{ method := "GET", path := "/analysis/cfg/" ++ tn ++ "/" ++ mn,
            params := [("format", .str fmt)] }], baseResp)) ∧
    (JVal.otruthy (baseResp.get "success") = true →
      ((build_cfg tn mn fmt incD incF baseResp domResp dfResp).1.map
          Request.endpoint =
        [("GET", "/analysis/cfg/" ++ tn ++ "/" ++ mn)] ++
        (if incD then [("POST", "/analysis/dominators")] else []) ++
        (if incF then [("POST", "/analysis/dataflow")] else [])) ∧
      ((build_cfg tn mn fmt incD incF baseResp domResp dfResp).2.get "dominators" =
        if incD && JVal.otruthy (domResp.get "success") then
          some (.obj
            [("immediateDominators", (domResp.get "immediateDominators").getD .null),
             ("dominanceFrontier", (domResp.get "dominanceFrontier").getD .null),
             ("controlDependence", (domResp.get "controlDependence").getD .null)])
        else baseResp.get "dominators") ∧
      ((build_cfg tn mn fmt incD incF baseResp domResp dfResp).2.get "dataflow" =
        if incF && JVal.otruthy (dfResp.get "success") then
          some (.obj
            [("liveIn", (dfResp.get "liveIn").getD .null),
             ("liveOut", (dfResp.get "liveOut").getD .null),
             ("definitionCount", (dfResp.get "definitionCount").getD .null)])
        else baseResp.get "dataflow") ∧
      (∀ k, k ≠ "dominators" → k ≠ "dataflow" →
        (build_cfg tn mn fmt incD incF baseResp domResp dfResp).2.get k =
          baseResp.get k)) := by
  constructor
  · intro h
    simp [build_cfg, h]
  · intro h
    obtain ⟨fs, rfl⟩ := exists_obj_of_otruthy baseResp "success" h
    have h' : JVal.otruthy (JVal.alookup fs "success") = true := h
    refine ⟨?_, ?_, ?_, ?_⟩
    · cases hD : incD <;> cases hF : incF <;>
        cases hdo : JVal.otruthy (domResp.get "success") <;>
        cases hfo : JVal.otruthy (dfResp.get "success") <;>
        simp [build_cfg, h', hdo, hfo, Request.endpoint, JVal.objSet, get_obj,
              alookup_setKey_self, alookup_setKey_other]
    · cases hD : incD <;> cases hF : incF <;>
        cases hdo : JVal.otruthy (domResp.get "success") <;>
        cases hfo : JVal.otruthy (dfResp.get "success") <;>
        simp [build_cfg, h', hdo, hfo, JVal.objSet, get_obj,
              alookup_setKey_self, alookup_setKey_other]
    · cases hD : incD <;> cases hF : incF <;>
        cases hdo : JVal.otruthy (domResp.get "success") <;>
        cases hfo : JVal.otruthy (dfResp.get "success") <;>
        simp [build_cfg, h', hdo, hfo, JVal.objSet, get_obj,
              alookup_setKey_self, alookup_setKey_other]
    · intro k hk1 hk2
      cases hD : incD <;> cases hF : incF <;>
        cases hdo : JVal.otruthy (domResp.get "success") <;>
        cases hfo : JVal.otruthy (dfResp.get "success") <;>
        simp [build_cfg, h', hdo, hfo, hk1, hk2, JVal.objSet, get_obj,
              alookup_setKey_self, alookup_setKey_other]

/-- Witness for C7: base CFG succeeds, dominator analysis fails, dataflow
succeeds — the `dominators` field stays absent, `dataflow` is merged, the
base `success` field is untouched. -/
theorem C7_build_cfg_enrichment_witness :
    (build_cfg "T" "M" "json" true true cfgOkResp domFailResp dfOkResp).2.get
        "dominators" = none ∧
    (build_cfg "T" "M" "json" true true cfgOkResp domFailResp dfOkResp).2.get
        "success" = some (.bool true) := by
  have h := (C7_build_cfg_enrichment "T" "M" "json" true true cfgOkResp
    domFailResp dfOkResp).2 (by decide)
  refine ⟨?_, ?_⟩
  · rw [h.2.1]; rfl
  · rw [h.2.2.2 "success" (by decide) (by decide)]; rfl

end DotNetMCP
